import Mathlib

/-!
Shallow embedding of
`testing_and_setup/compass/ocean/internal_tide/3km/default/add_initial_state.py`:
the vertical-grid construction, bathymetry, tracer initialization and output
conventions of the internal-tide initial-state generator.  Real arithmetic is
modelled exactly by `ℚ`; the exponential is an abstract parameter constrained
by the properties actually used (`expf 0 = 1`).
-/

namespace AddInitialState

/-- The maximum depth constant, line 44 of the script: `maxDepth = 5000.0`. -/
def maxDepth : ℚ := 5000

/-- The sentinel fill value of the 3-D arrays, line 77:
`-9*np.ones([1, nCells, nVertLevels])`. -/
def fillValue : ℚ := -9

/-- Line 82: `refLayerThickness[:] = maxDepth/nVertLevels` (uniform layers). -/
def refLayerThickness (n : ℕ) (_k : ℕ) : ℚ := maxDepth / n

/-- Lines 83 and 86: `refBottomDepth[0] = refLayerThickness[0]`,
`refBottomDepth[k] = refBottomDepth[k-1] + refLayerThickness[k]`. -/
def refBottomDepth (n : ℕ) : ℕ → ℚ
  | 0 => refLayerThickness n 0
  | k + 1 => refBottomDepth n k + refLayerThickness n (k + 1)

/-- Lines 84 and 87: `refZMid[0] = -0.5*refLayerThickness[0]`,
`refZMid[k] = -refBottomDepth[k-1] - 0.5*refLayerThickness[k]`. -/
def refZMid (n : ℕ) : ℕ → ℚ
  | 0 => -(1/2) * refLayerThickness n 0
  | k + 1 => -refBottomDepth n k - (1/2) * refLayerThickness n (k + 1)

/-- The scan of lines 105-111: `for k in range(nVertLevels-1, 0, -1)` with a
`break` at the first `k` (largest index) satisfying
`bottomDepth[iCell] > refBottomDepth[k-1]`; `none` when the loop falls
through.  `scanLevels n bd kTop` examines `k = kTop, kTop-1, ..., 1`. -/
def scanLevels (n : ℕ) (bd : ℚ) : ℕ → Option ℕ
  | 0 => none
  | k + 1 => if refBottomDepth n k < bd then some (k + 1) else scanLevels n bd k

/-- The scan as the script performs it, starting at `k = nVertLevels - 1`. -/
def foundLevel (n : ℕ) (bd : ℚ) : Option ℕ := scanLevels n bd (n - 1)

/-- `maxLevelCell` for one cell: initialized to 1 (line 72) and overwritten by
the scan when it finds a level (line 107). -/
def maxLevelCell (n : ℕ) (bd : ℚ) : ℕ := (foundLevel n bd).getD 1

/-- The final per-cell `layerThickness` column: level 0 from line 118
(`refLayerThickness[0] + ssh`), the partial bottom cell at the found level from
line 109, the interior levels `k = maxLevelCell-1, ..., 2` from line 113 (the
loop bound of line 112 stops above level 1), sentinel elsewhere. -/
def layerThickness (n : ℕ) (bd sshC : ℚ) (k : ℕ) : ℚ :=
  if k = 0 then refLayerThickness n 0 + sshC
  else
    match foundLevel n bd with
    | none => fillValue
    | some m =>
        if k = m then bd - refBottomDepth n (m - 1)
        else if 2 ≤ k ∧ k < m then refLayerThickness n k
        else fillValue

/-- The `zMid` chain of lines 110 and 114-115, counted downward from the
partial-bottom level `m`: `zMidAux n bd sshC m j` is the final `zMid` at level
`m - j`. -/
def zMidAux (n : ℕ) (bd sshC : ℚ) (m : ℕ) : ℕ → ℚ
  | 0 => -bd + (1/2) * (bd - refBottomDepth n (m - 1))
  | j + 1 => zMidAux n bd sshC m j
      + (1/2) * (layerThickness n bd sshC (m - j) + layerThickness n bd sshC (m - j - 1))

/-- The final `zMid` at levels `k ≥ 1`: the partial bottom level from line 110,
levels `2 ≤ k < m` from lines 114-115, sentinel elsewhere (level 1 in
particular is skipped by the loop bounds of line 112 whenever `m ≥ 2`). -/
def zMidUpper (n : ℕ) (bd sshC : ℚ) (k : ℕ) : ℚ :=
  match foundLevel n bd with
  | none => fillValue
  | some m =>
      if k = m then zMidAux n bd sshC m 0
      else if 2 ≤ k ∧ k < m then zMidAux n bd sshC m (m - k)
      else fillValue

/-- The final `zMid` column: level 0 from lines 119-120 (computed from the
current level-1 values, assigned or not), levels `k ≥ 1` from `zMidUpper`. -/
def zMid (n : ℕ) (bd sshC : ℚ) (k : ℕ) : ℚ :=
  if k = 0 then
    zMidUpper n bd sshC 1
      + (1/2) * (layerThickness n bd sshC 1 + layerThickness n bd sshC 0)
  else zMidUpper n bd sshC k

/-- Line 127: `rho0 = 1000.0`. -/
def rho0 : ℚ := 1000

/-- Line 128: `rhoz = -2.0e-4`. -/
def rhoz : ℚ := -2/10000

/-- Line 129: `S0 = 35.0`. -/
def S0 : ℚ := 35

/-- Line 138: `config_eos_linear_alpha = 0.2`. -/
def config_eos_linear_alpha : ℚ := 2/10

/-- Line 140: `config_eos_linear_Tref = 10.0`. -/
def config_eos_linear_Tref : ℚ := 10

/-- Line 142: `config_eos_linear_densityref = 1000.0`. -/
def config_eos_linear_densityref : ℚ := 1000

/-- Lines 144-146: `salinity[0, activeCells, k] = S0` on the mask
`k <= maxLevelCell`; inactive entries keep the sentinel. -/
def salinity (n : ℕ) (bd : ℚ) (k : ℕ) : ℚ :=
  if k ≤ maxLevelCell n bd then S0 else fillValue

/-- Line 147: `density[0, activeCells, k] = rho0 + rhoz*zMid[0, activeCells, k]`
on the mask `k <= maxLevelCell`; inactive entries keep the sentinel. -/
def density (n : ℕ) (bd sshC : ℚ) (k : ℕ) : ℚ :=
  if k ≤ maxLevelCell n bd then rho0 + rhoz * zMid n bd sshC k else fillValue

/-- Lines 149-150: `temperature = Tref - (density - densityref)/alpha` on the
mask `k <= maxLevelCell`; inactive entries keep the sentinel. -/
def temperature (n : ℕ) (bd sshC : ℚ) (k : ℕ) : ℚ :=
  if k ≤ maxLevelCell n bd then
    config_eos_linear_Tref
      - (density n bd sshC k - config_eos_linear_densityref) / config_eos_linear_alpha
  else fillValue

/-- Lines 122-123.  Line 122 copies `layerThickness` into `restingThickness`;
line 123, `restingThickness[:, 0] = refLayerThickness[0]`, indexes the
`(Time, nCells, nVertLevels)` array at Time-slice `:` and cell index 0, so it
overwrites every level of cell 0 (not level 0 of every cell).  `bd` and `sshC`
give each cell's bottom depth and sea-surface height. -/
def restingThickness (n : ℕ) (bd sshC : ℕ → ℚ) (i k : ℕ) : ℚ :=
  if i = 0 then refLayerThickness n 0
  else layerThickness n (bd i) (sshC i) k

/-- Python's `min` over a nonempty array, as a fold. -/
def listMin : List ℚ → ℚ
  | [] => 0
  | x :: xs => xs.foldl min x

/-- Python's `max` over a nonempty array, as a fold. -/
def listMax : List ℚ → ℚ
  | [] => 0
  | x :: xs => xs.foldl max x

/-- Line 94: `xMid = 0.5*(min(xCell) + max(xCell))`. -/
def xMid (xCell : List ℚ) : ℚ := (1/2) * (listMin xCell + listMax xCell)

/-- Line 95: `bottomDepth[:] = 5000.0 - 1000.0*np.exp(-((xCell[:]-xMid)/150e3)**2)`
with `np.exp` abstracted as the parameter `expf`. -/
def bottomDepth (expf : ℚ → ℚ) (xm x : ℚ) : ℚ :=
  5000 - 1000 * expf (-(((x - xm) / 150000) ^ 2))

/-- Line 97: `ssh[:] = xCell[:]/4800e3`. -/
def ssh (x : ℚ) : ℚ := x / 4800000

/-- Line 124: `bottomDepthObserved[:] = bottomDepth[:]`. -/
def bottomDepthObserved (expf : ℚ → ℚ) (xm x : ℚ) : ℚ := bottomDepth expf xm x

/-- Line 167: `ds['maxLevelCell'] = (['nCells'], maxLevelCell + 1)`. -/
def maxLevelCellOut (n : ℕ) (bd : ℚ) : ℕ := maxLevelCell n bd + 1

/-- A value held by `argparse` for an option: either a Python `int` (as the
literal `default=50` is) or the raw command-line token string. -/
inductive ArgValue where
  | intVal : Int → ArgValue
  | strVal : String → ArgValue
deriving DecidableEq

/-- Lines 32-36: the `-L` (long form `--nVertLevels`) option is declared with `default=50`
and no `type=` converter, so an omitted option yields the `int` 50 while a
supplied option yields the raw token string. -/
def parsedNVertLevels : Option String → ArgValue
  | none => ArgValue.intVal 50
  | some s => ArgValue.strVal s

/-! Helper lemmas about the reference column and the bottom-level scan. -/

/-- Closed form of the cumulative reference bottom depth. -/
lemma refBottomDepth_closed (n : ℕ) (k : ℕ) :
    refBottomDepth n k = ((k : ℚ) + 1) * (maxDepth / n) := by
  induction k with
  | zero => norm_num [refBottomDepth, refLayerThickness]
  | succ k ih =>
      simp only [refBottomDepth, ih, refLayerThickness]
      push_cast
      ring

/-- Closed form of the reference mid-layer depth. -/
lemma refZMid_closed (n : ℕ) (k : ℕ) :
    refZMid n k = -(((k : ℚ) + 1/2) * (maxDepth / n)) := by
  cases k with
  | zero =>
      simp only [refZMid, refLayerThickness]
      push_cast
      ring
  | succ k =>
      simp only [refZMid, refLayerThickness, refBottomDepth_closed]
      push_cast
      ring

/-- What a successful scan returns: a level in `[1, kTop]` whose reference
bottom lies strictly above the seafloor, and the largest such level. -/
lemma scanLevels_some_spec (n : ℕ) (bd : ℚ) :
    ∀ kTop m, scanLevels n bd kTop = some m →
      1 ≤ m ∧ m ≤ kTop ∧ refBottomDepth n (m - 1) < bd ∧
        ∀ j, m < j → j ≤ kTop → ¬ refBottomDepth n (j - 1) < bd := by
  intro kTop
  induction kTop with
  | zero => intro m h; exact absurd h (by simp [scanLevels])
  | succ k ih =>
      intro m h
      simp only [scanLevels] at h
      by_cases hc : refBottomDepth n k < bd
      · rw [if_pos hc] at h
        obtain rfl : k + 1 = m := Option.some_inj.mp h
        refine ⟨Nat.succ_le_succ (Nat.zero_le k), le_refl _, by simpa using hc, ?_⟩
        intro j hj1 hj2
        exact absurd (lt_of_lt_of_le hj1 hj2) (lt_irrefl _)
      · rw [if_neg hc] at h
        obtain ⟨h1, h2, h3, h4⟩ := ih m h
        refine ⟨h1, h2.trans (Nat.le_succ k), h3, ?_⟩
        intro j hj1 hj2
        by_cases hjk : j ≤ k
        · exact h4 j hj1 hjk
        · have hj : j = k + 1 := by omega
          subst hj
          simpa using hc

/-- The scan succeeds as soon as one admissible level exists below `kTop`. -/
lemma scanLevels_find (n : ℕ) (bd : ℚ) :
    ∀ kTop k, 1 ≤ k → k ≤ kTop → refBottomDepth n (k - 1) < bd →
      ∃ m, scanLevels n bd kTop = some m := by
  intro kTop
  induction kTop with
  | zero => intro k h1 h2 _; exact absurd (h1.trans h2) (by omega)
  | succ kT ih =>
      intro k h1 h2 h3
      by_cases hc : refBottomDepth n kT < bd
      · exact ⟨kT + 1, by simp only [scanLevels]; rw [if_pos hc]⟩
      · have hk : k ≤ kT := by
          by_contra hcon
          have hke : k = kT + 1 := by omega
          subst hke
          exact hc (by simpa using h3)
        obtain ⟨m, hm⟩ := ih k h1 hk h3
        exact ⟨m, by simp only [scanLevels]; rw [if_neg hc]; exact hm⟩

/-! Claim theorems. -/

/-- Claim C3 (confirmed): whenever some level `k` in `1..nVertLevels-1` has
`bottomDepth > refBottomDepth[k-1]`, the scan of lines 105-111 sets
`maxLevelCell` to the deepest (largest-index) such `k` — the first one found
scanning downward in index from `nVertLevels-1` — and at that level
`layerThickness = bottomDepth - refBottomDepth[maxLevelCell-1]` and
`zMid = -bottomDepth + 0.5*layerThickness[maxLevelCell]`. -/
theorem scan_bottom_cell_correct (n : ℕ) (bd sshC : ℚ) (k₀ : ℕ)
    (h1 : 1 ≤ k₀) (h2 : k₀ ≤ n - 1) (h3 : refBottomDepth n (k₀ - 1) < bd) :
    ∃ m, foundLevel n bd = some m ∧ maxLevelCell n bd = m ∧
      1 ≤ m ∧ m ≤ n - 1 ∧ refBottomDepth n (m - 1) < bd ∧
      (∀ j, m < j → j ≤ n - 1 → ¬ refBottomDepth n (j - 1) < bd) ∧
      layerThickness n bd sshC m = bd - refBottomDepth n (m - 1) ∧
      zMid n bd sshC m = -bd + (1/2) * layerThickness n bd sshC m := by
  obtain ⟨m, hm⟩ := scanLevels_find n bd (n - 1) k₀ h1 h2 h3
  obtain ⟨hm1, hm2, hm3, hm4⟩ := scanLevels_some_spec n bd (n - 1) m hm
  have hfound : foundLevel n bd = some m := hm
  have hmne : m ≠ 0 := by omega
  have hlt : layerThickness n bd sshC m = bd - refBottomDepth n (m - 1) := by
    simp [layerThickness, hfound, hmne]
  refine ⟨m, hfound, by simp [maxLevelCell, hfound], hm1, hm2, hm3, hm4, hlt, ?_⟩
  rw [hlt]
  simp [zMid, zMidUpper, zMidAux, hfound, hmne]

/-- Claim C3 witness: at `nVertLevels = 4`, `bottomDepth = 4000`, `ssh = 0`
the hypotheses hold at `k₀ = 1` and the scan produces a partial bottom cell. -/
theorem scan_bottom_cell_correct_witness :
    ∃ m, foundLevel 4 4000 = some m ∧ maxLevelCell 4 4000 = m ∧
      1 ≤ m ∧ m ≤ 4 - 1 ∧ refBottomDepth 4 (m - 1) < 4000 ∧
      (∀ j, m < j → j ≤ 4 - 1 → ¬ refBottomDepth 4 (j - 1) < 4000) ∧
      layerThickness 4 4000 0 m = 4000 - refBottomDepth 4 (m - 1) ∧
      zMid 4 4000 0 m = -4000 + (1/2) * layerThickness 4 4000 0 m :=
  scan_bottom_cell_correct 4 4000 0 1 (by norm_num) (by norm_num)
    (by norm_num [refBottomDepth, refLayerThickness, maxDepth])

/-- Claim C4 (confirmed): for positive `nVertLevels` the reference column is
uniform with `refLayerThickness[k] = maxDepth/nVertLevels`, `refBottomDepth`
is the strictly increasing cumulative sum, `refZMid` is strictly decreasing,
and the reference thicknesses sum to `maxDepth` exactly. -/
theorem refColumn_invariants (n : ℕ) (hn : 0 < n) :
    (∀ k, refLayerThickness n k = maxDepth / n) ∧
    (∀ k, refBottomDepth n (k + 1) = refBottomDepth n k + refLayerThickness n (k + 1)) ∧
    (∀ k, refBottomDepth n k < refBottomDepth n (k + 1)) ∧
    (∀ k, refZMid n (k + 1) < refZMid n k) ∧
    Finset.sum (Finset.range n) (refLayerThickness n) = maxDepth := by
  have hn' : (0:ℚ) < (n:ℚ) := by exact_mod_cast hn
  have ht : (0:ℚ) < maxDepth / n := div_pos (by norm_num [maxDepth]) hn'
  refine ⟨fun k => rfl, fun k => by simp [refBottomDepth], fun k => ?_, fun k => ?_, ?_⟩
  · rw [refBottomDepth_closed, refBottomDepth_closed]
    have hcast : ((k:ℚ) + 1) < (((k+1 : ℕ)):ℚ) + 1 := by push_cast; linarith
    exact mul_lt_mul_of_pos_right hcast ht
  · rw [refZMid_closed, refZMid_closed]
    apply neg_lt_neg
    apply mul_lt_mul_of_pos_right _ ht
    push_cast
    linarith
  · simp only [refLayerThickness]
    rw [Finset.sum_const, Finset.card_range, nsmul_eq_mul, mul_comm,
      div_mul_cancel₀ _ (ne_of_gt hn')]

/-- Claim C4 witness: the invariants at the default `nVertLevels = 50`. -/
theorem refColumn_invariants_witness :
    Finset.sum (Finset.range 50) (refLayerThickness 50) = maxDepth :=
  (refColumn_invariants 50 (by norm_num)).2.2.2.2

/-- Claim C6 (confirmed): when no level `k` in `1..nVertLevels-1` has
`bottomDepth > refBottomDepth[k-1]`, the scan falls through, `maxLevelCell`
keeps its initialized value 1, and `layerThickness`/`zMid` keep the sentinel
at every level `k ≥ 1`; the computation is total, no error is raised. -/
theorem no_active_level (n : ℕ) (bd sshC : ℚ)
    (h : ∀ k, 1 ≤ k → k ≤ n - 1 → ¬ refBottomDepth n (k - 1) < bd) :
    foundLevel n bd = none ∧ maxLevelCell n bd = 1 ∧
      ∀ k, 1 ≤ k → layerThickness n bd sshC k = fillValue ∧
        zMid n bd sshC k = fillValue := by
  have hnone : foundLevel n bd = none := by
    cases hf : foundLevel n bd with
    | none => rfl
    | some m =>
        obtain ⟨hm1, hm2, hm3, _⟩ := scanLevels_some_spec n bd (n - 1) m hf
        exact absurd hm3 (h m hm1 hm2)
  refine ⟨hnone, by simp [maxLevelCell, hnone], ?_⟩
  intro k hk
  have hkne : k ≠ 0 := by omega
  exact ⟨by simp [layerThickness, hnone, hkne], by simp [zMid, zMidUpper, hnone, hkne]⟩

/-- Claim C6 witness: at `nVertLevels = 4`, `bottomDepth = 1000` the seafloor
is shallower than every interior reference boundary, so the scan finds
nothing. -/
theorem no_active_level_witness :
    foundLevel 4 1000 = none ∧ maxLevelCell 4 1000 = 1 ∧
      ∀ k, 1 ≤ k → layerThickness 4 1000 0 k = fillValue ∧
        zMid 4 1000 0 k = fillValue :=
  no_active_level 4 1000 0 (by
    intro k h1 h3
    interval_cases k <;> norm_num [refBottomDepth, refLayerThickness, maxDepth])

/-- Claim C1 counterexample: at `nVertLevels = 4`, `bottomDepth = 4000`,
`ssh = 0` the cell has `maxLevelCell = 3 ≥ 2`, yet the sum of `layerThickness`
over levels `0..3` is `2741`, not `bottomDepth + ssh = 4000`: the fill loop of
line 112 stops above level 1, which keeps the sentinel `-9`. -/
theorem thickness_sum_counterexample :
    maxLevelCell 4 4000 = 3 ∧
      Finset.sum (Finset.range (maxLevelCell 4 4000 + 1)) (layerThickness 4 4000 0)
        = 2741 ∧
      layerThickness 4 4000 0 1 = -9 ∧
      (2741 : ℚ) ≠ 4000 + 0 := by
  refine ⟨?_, ?_, ?_, by norm_num⟩
  · norm_num [maxLevelCell, foundLevel, scanLevels, refBottomDepth,
      refLayerThickness, maxDepth]
  · norm_num [Finset.sum_range_succ, maxLevelCell, layerThickness, foundLevel,
      scanLevels, refBottomDepth, refLayerThickness, maxDepth, fillValue]
  · norm_num [layerThickness, foundLevel, scanLevels, refBottomDepth,
      refLayerThickness, maxDepth, fillValue]

/-- Claim C1 (amended): when the scan finds a bottom level `m`, the sum of
`layerThickness` over the active levels `0..maxLevelCell` equals
`bottomDepth + ssh` exactly if `maxLevelCell = 1`; if `maxLevelCell ≥ 2` the
loop of line 112 skips level 1, which keeps the sentinel `-9`, and the sum is
`bottomDepth + ssh - refLayerThickness[1] + (-9)` instead. -/
theorem thickness_sum_amended (n : ℕ) (bd sshC : ℚ) (m : ℕ)
    (hm : foundLevel n bd = some m) :
    (m = 1 → Finset.sum (Finset.range (maxLevelCell n bd + 1)) (layerThickness n bd sshC)
        = bd + sshC) ∧
    (2 ≤ m → Finset.sum (Finset.range (maxLevelCell n bd + 1)) (layerThickness n bd sshC)
        = bd + sshC - refLayerThickness n 1 + fillValue) := by
  have hmax : maxLevelCell n bd = m := by simp [maxLevelCell, hm]
  rw [hmax]
  constructor
  · rintro rfl
    rw [Finset.sum_range_succ, Finset.sum_range_succ, Finset.sum_range_zero]
    have h0 : layerThickness n bd sshC 0 = refLayerThickness n 0 + sshC := by
      simp [layerThickness]
    have h1 : layerThickness n bd sshC 1 = bd - refBottomDepth n 0 := by
      simp [layerThickness, hm]
    have hrb : refBottomDepth n 0 = refLayerThickness n 0 := rfl
    rw [h0, h1, hrb]
    ring
  · intro h2m
    have hL0 : layerThickness n bd sshC 0 = refLayerThickness n 0 + sshC := by
      simp [layerThickness]
    have hL1 : layerThickness n bd sshC 1 = fillValue := by
      have h1m : (1:ℕ) ≠ m := by omega
      simp [layerThickness, hm, h1m]
    have hLm : layerThickness n bd sshC m = bd - refBottomDepth n (m - 1) := by
      have hmne : m ≠ 0 := by omega
      simp [layerThickness, hm, hmne]
    have key : ∀ k ∈ Finset.Ico 2 m,
        layerThickness n bd sshC k = maxDepth / n := by
      intro k hk
      obtain ⟨hk2, hkm⟩ := Finset.mem_Ico.mp hk
      have hk0 : k ≠ 0 := by omega
      have hkne : k ≠ m := by omega
      simp [layerThickness, hm, hk0, hkne, hk2, hkm, refLayerThickness]
    rw [Finset.range_eq_Ico,
      ← Finset.sum_Ico_consecutive _ (by omega : 0 ≤ 2) (by omega : 2 ≤ m + 1),
      Finset.sum_Ico_succ_top (by omega : 2 ≤ m)]
    have hIco02 : Finset.sum (Finset.Ico 0 2) (layerThickness n bd sshC)
        = layerThickness n bd sshC 0 + layerThickness n bd sshC 1 := by
      rw [Nat.Ico_zero_eq_range, Finset.sum_range_succ, Finset.sum_range_succ,
        Finset.sum_range_zero]
      ring
    have hIco2m : Finset.sum (Finset.Ico 2 m) (layerThickness n bd sshC)
        = ((m : ℚ) - 2) * (maxDepth / n) := by
      rw [Finset.sum_congr rfl key, Finset.sum_const, Nat.card_Ico, nsmul_eq_mul]
      congr 1
      push_cast [h2m]
      ring
    rw [hIco02, hIco2m, hL0, hL1, hLm, refBottomDepth_closed]
    have hm1 : ((m - 1 : ℕ) : ℚ) = (m : ℚ) - 1 := by
      have h1m : (1:ℕ) ≤ m := by omega
      push_cast [h1m]
      ring
    rw [hm1]
    simp only [refLayerThickness]
    ring

/-- Claim C1 amended witness: the `maxLevelCell ≥ 2` branch at
`nVertLevels = 4`, `bottomDepth = 4000`, `ssh = 0`. -/
theorem thickness_sum_amended_witness :
    Finset.sum (Finset.range (maxLevelCell 4 4000 + 1)) (layerThickness 4 4000 0)
      = 4000 + 0 - refLayerThickness 4 1 + fillValue :=
  (thickness_sum_amended 4 4000 0 3
    (by norm_num [foundLevel, scanLevels, refBottomDepth, refLayerThickness,
      maxDepth])).2 (by norm_num)

/-- Claim C2 evaluation at `nVertLevels = 2` and two cells, both with
`bottomDepth = 4000`, with `ssh = 0` at cell 0 and `ssh = 1` at cell 1: the
write of line 123 addresses every level of cell 0, not level 0 of every cell,
so cell 1 keeps `refLayerThickness[0] + ssh = 2501` at level 0 (the claim
says `refLayerThickness[0] = 2500`) and cell 0 holds `2500` at level 1 (the
claim says `layerThickness[0][1] = 1500`). -/
theorem restingThickness_bug_eval :
    restingThickness 2 (fun _ => 4000) (fun i => if i = 0 then 0 else 1) 1 0 = 2501 ∧
      refLayerThickness 2 0 = 2500 ∧
      (2501 : ℚ) ≠ 2500 ∧
      restingThickness 2 (fun _ => 4000) (fun i => if i = 0 then 0 else 1) 0 1 = 2500 ∧
      layerThickness 2 4000 0 1 = 1500 ∧
      (2500 : ℚ) ≠ 1500 := by
  refine ⟨?_, ?_, by norm_num, ?_, ?_, by norm_num⟩
  · norm_num [restingThickness, layerThickness, foundLevel, scanLevels,
      refBottomDepth, refLayerThickness, maxDepth]
  · norm_num [refLayerThickness, maxDepth]
  · norm_num [restingThickness, refLayerThickness, maxDepth]
  · norm_num [layerThickness, foundLevel, scanLevels, refBottomDepth,
      refLayerThickness, maxDepth]

/-- Claim C5 (confirmed): at every level `k ≤ maxLevelCell` the tracers are
`salinity = 35`, `density = 1000 + (-2.0e-4)*zMid[k]` and
`temperature = 10 - (density - 1000)/0.2`; at every level `k > maxLevelCell`
all three keep the sentinel fill value. -/
theorem tracer_fields (n : ℕ) (bd sshC : ℚ) (k : ℕ) (_hk : k < n) :
    (k ≤ maxLevelCell n bd →
      salinity n bd k = 35 ∧
      density n bd sshC k = 1000 + (-2/10000) * zMid n bd sshC k ∧
      temperature n bd sshC k = 10 - (density n bd sshC k - 1000) / (2/10)) ∧
    (maxLevelCell n bd < k →
      salinity n bd k = fillValue ∧ density n bd sshC k = fillValue ∧
        temperature n bd sshC k = fillValue) := by
  constructor
  · intro h
    refine ⟨?_, ?_, ?_⟩ <;>
      simp [salinity, density, temperature, h, S0, rho0, rhoz,
        config_eos_linear_Tref, config_eos_linear_alpha,
        config_eos_linear_densityref]
  · intro h
    have h' : ¬ k ≤ maxLevelCell n bd := Nat.not_le.mpr h
    exact ⟨by simp [salinity, h'], by simp [density, h'], by simp [temperature, h']⟩

/-- Claim C5 witness: the active branch at `nVertLevels = 4`,
`bottomDepth = 4000`, `ssh = 0`, level `k = 2 ≤ maxLevelCell = 3`. -/
theorem tracer_fields_witness :
    salinity 4 4000 2 = 35 ∧
      density 4 4000 0 2 = 1000 + (-2/10000) * zMid 4 4000 0 2 ∧
      temperature 4 4000 0 2 = 10 - (density 4 4000 0 2 - 1000) / (2/10) :=
  (tracer_fields 4 4000 0 2 (by norm_num)).1
    (by norm_num [maxLevelCell, foundLevel, scanLevels, refBottomDepth,
      refLayerThickness, maxDepth])

/-- Claim C7 evaluation: the option is declared without a `type=` converter,
so an omitted `-L` yields the integer 50 but a supplied token such as `100`
stays a string and is never the integer 100. -/
theorem nVertLevels_option_kept_as_string :
    parsedNVertLevels none = ArgValue.intVal 50 ∧
      parsedNVertLevels (some "100") = ArgValue.strVal "100" ∧
      ∀ z : Int, parsedNVertLevels (some "100") ≠ ArgValue.intVal z := by
  refine ⟨rfl, rfl, fun z h => ?_⟩
  exact ArgValue.noConfusion h

/-- Claim C8 (confirmed): `bottomDepth` is the Gaussian-depression formula in
`x - xMid` with `xMid` the midpoint of min/max cell x; a cell at `x = xMid`
has `bottomDepth = 4000` exactly (using `exp 0 = 1`), a cell at `x = 0` has
`ssh = 0`, and a cell at `x = 4800000` has `ssh = 1`. -/
theorem gaussian_ridge_and_ssh (expf : ℚ → ℚ) (hexp : expf 0 = 1)
    (xCell : List ℚ) (x : ℚ) :
    bottomDepth expf (xMid xCell) x
        = 5000 - 1000 * expf (-(((x - xMid xCell) / 150000) ^ 2)) ∧
      bottomDepth expf (xMid xCell) (xMid xCell) = 4000 ∧
      ssh 0 = 0 ∧ ssh 4800000 = 1 := by
  refine ⟨rfl, ?_, by norm_num [ssh], by norm_num [ssh]⟩
  norm_num [bottomDepth, hexp]

/-- Claim C8 witness: a two-cell domain with x-coordinates 0 and 4800000,
with the exponential instantiated by a function satisfying `expf 0 = 1`. -/
theorem gaussian_ridge_and_ssh_witness :
    bottomDepth (fun _ => 1) (xMid [0, 4800000]) (xMid [0, 4800000]) = 4000 ∧
      ssh 0 = 0 ∧ ssh 4800000 = 1 :=
  (gaussian_ridge_and_ssh (fun _ => 1) rfl [0, 4800000] 0).2

/-- Claim C9 (confirmed): the `maxLevelCell` value written to the output
dataset is the computed 0-indexed value plus 1, hence at least 1. -/
theorem maxLevelCell_written_one_indexed (n : ℕ) (bd : ℚ) :
    maxLevelCellOut n bd = maxLevelCell n bd + 1 ∧ 1 ≤ maxLevelCellOut n bd :=
  ⟨rfl, Nat.le_add_left 1 (maxLevelCell n bd)⟩

/-- Claim C10 (confirmed): `bottomDepthObserved` is the generated bathymetry
copied verbatim. -/
theorem bottomDepthObserved_copies_bottomDepth (expf : ℚ → ℚ) (xm x : ℚ) :
    bottomDepthObserved expf xm x = bottomDepth expf xm x := rfl

end AddInitialState
